import Mathlib

/-!
Shallow embedding of `src/main.py` (Zajmil AI Chef v2.3.2): the Gemini
generation client's resilience layer (model-name normalization, retry
loop, response parsing), the SEO optimizer and validator heuristics, and
the analytics tracker, as needed by the verified claims.

Strings are modelled by Lean `String` (a sequence of unicode
characters, as in Python).  Python `str.lower()` is modelled by ASCII
case folding (`Char.toLower`); this agrees with Python on every
character appearing in the model-name tables and on the Arabic text
processed by the program (Arabic script has no case).  Python
`str.strip()` is modelled on the ASCII whitespace characters.
-/

namespace Zajmil

/-- Python whitespace test (ASCII whitespace characters). -/
def isPySpace (c : Char) : Bool :=
  c = ' ' || c = '\t' || c = '\n' || c = '\r' || c.val = 11 || c.val = 12

/-- Python `str.strip()` (removes whitespace from both ends). -/
def pyStrip (s : String) : String :=
  ⟨((s.data.dropWhile isPySpace).reverse.dropWhile isPySpace).reverse⟩

/-- Python `str.lower()` (ASCII case folding, see the file comment). -/
def pyLower (s : String) : String := ⟨s.data.map Char.toLower⟩

/-- Python `s.startswith(p)`. -/
def pyStartsWith (s p : String) : Bool := p.data.isPrefixOf s.data

/-- Python `s.endswith(p)`. -/
def pyEndsWith (s p : String) : Bool := p.data.reverse.isPrefixOf s.data.reverse

/-- Python slice `s[:n]` for `n ≥ 0`. -/
def pyTake (s : String) (n : Nat) : String := ⟨s.data.take n⟩

/-- Python slice `s[:-n]` (empty result when `n ≥ len(s)`, as in Python). -/
def pyDropRight (s : String) (n : Nat) : String := ⟨s.data.take (s.data.length - n)⟩

/-- Substring occurrence test on character lists (Python `needle in hay`). -/
def containsSub (needle : List Char) : List Char → Bool
  | [] => needle.isEmpty
  | c :: rest => needle.isPrefixOf (c :: rest) || containsSub needle rest

/-- Python substring containment `sub in s` on strings. -/
def pyIn (sub s : String) : Bool := containsSub sub.data s.data

lemma isPrefixOf_append_self (l t : List Char) : l.isPrefixOf (l ++ t) = true := by
  induction l with
  | nil => cases t <;> rfl
  | cons c cs ih => simp [List.isPrefixOf, ih]

lemma containsSub_of_isPrefixOf {n hay : List Char} (h : n.isPrefixOf hay = true) :
    containsSub n hay = true := by
  cases hay with
  | nil =>
    cases n with
    | nil => rfl
    | cons c cs => simp [List.isPrefixOf] at h
  | cons c rest => simp [containsSub, h]

/-! ## Model-name normalization (`GeminiChefEngine`, `src/main.py` 687–781) -/

/-- `GeminiChefEngine.SUPPORTED_MODELS` (src/main.py 687–695). -/
def SUPPORTED_MODELS : List String :=
  ["gemini-1.5-flash", "gemini-1.5-flash-001", "gemini-1.5-flash-002",
   "gemini-1.5-pro", "gemini-1.5-pro-001", "gemini-1.5-pro-002", "gemini-pro"]

/-- `GeminiChefEngine.MODEL_ALIASES` (src/main.py 697–707). -/
def MODEL_ALIASES : List (String × String) :=
  [("flash", "gemini-1.5-flash"),
   ("flash-latest", "gemini-1.5-flash"),
   ("flash-1.5", "gemini-1.5-flash"),
   ("pro", "gemini-1.5-pro"),
   ("pro-latest", "gemini-1.5-pro"),
   ("pro-1.5", "gemini-1.5-pro"),
   ("gemini", "gemini-1.5-flash"),
   ("gemini-1.5-flash-latest", "gemini-1.5-flash"),
   ("gemini-1.5-pro-latest", "gemini-1.5-pro")]

/-- First half of `_smart_normalize_model_name` (src/main.py 764–771):
`strip()`, then `replace('models/', '', 1)` guarded by
`startswith('models/')` — under the guard the first occurrence is the
leading 7-character span, so this is exactly dropping that span — then
`lower()`. -/
def cleanModelName (model_name : String) : String :=
  let original := pyStrip model_name
  let original :=
    if pyStartsWith original "models/" then ⟨original.data.drop 7⟩ else original
  pyLower original

/-- Second half of `_smart_normalize_model_name` (src/main.py 773–781):
alias-table lookup, then dropping a trailing `'-latest'`. -/
def resolveModelName (normalized : String) : String :=
  let normalized :=
    match MODEL_ALIASES.lookup normalized with
    | some v => v
    | none => normalized
  if pyEndsWith normalized "-latest" then pyDropRight normalized 7 else normalized

/-- `_smart_normalize_model_name` (src/main.py 762–781). -/
def smart_normalize_model_name (model_name : String) : String :=
  resolveModelName (cleanModelName model_name)

/-- The inputs for which normalization lands in the supported list:
cleaned forms that are alias-table keys or already supported models. -/
def ALIAS_OR_SUPPORTED : List String :=
  MODEL_ALIASES.map Prod.fst ++ SUPPORTED_MODELS

lemma resolve_mem_supported :
    ∀ s ∈ ALIAS_OR_SUPPORTED,
      resolveModelName s ∈ SUPPORTED_MODELS ∧
        smart_normalize_model_name (resolveModelName s) = resolveModelName s := by
  decide

/-- C1 (counterexample): at the input `"Models/flash"` the normalization is
neither idempotent nor supported-model-valued: the first pass yields
`"models/flash"` (the case-sensitive `startswith('models/')` check does not
fire, lowercasing then manufactures the prefix), which is not in
`SUPPORTED_MODELS`, and a second pass maps it further to
`"gemini-1.5-flash"`. -/
theorem C1_cex_normalize_not_idempotent :
    ¬ (smart_normalize_model_name (smart_normalize_model_name "Models/flash") =
         smart_normalize_model_name "Models/flash" ∧
       smart_normalize_model_name "Models/flash" ∈ SUPPORTED_MODELS) := by
  decide

/-- C1 (amended): `_smart_normalize_model_name` is a total function, and for
every input whose stripped, `'models/'`-prefix-dropped, lowercased form is an
alias-table key or a supported model name, it is idempotent and its output is
a member of `SUPPORTED_MODELS`. -/
theorem C1_normalize_idempotent_on_known (x : String)
    (h : cleanModelName x ∈ ALIAS_OR_SUPPORTED) :
    smart_normalize_model_name (smart_normalize_model_name x) =
      smart_normalize_model_name x ∧
    smart_normalize_model_name x ∈ SUPPORTED_MODELS := by
  have h2 := resolve_mem_supported (cleanModelName x) h
  exact ⟨h2.2, h2.1⟩

/-- C1 witness: the amended theorem applied at the concrete input `"flash"`. -/
theorem C1_normalize_idempotent_on_known_witness :
    smart_normalize_model_name (smart_normalize_model_name "flash") =
      smart_normalize_model_name "flash" ∧
    smart_normalize_model_name "flash" ∈ SUPPORTED_MODELS :=
  C1_normalize_idempotent_on_known "flash" (by decide)

/-! ## Title rewrite (`SEOOptimizer._optimize_title`, src/main.py 1179–1186) -/

/-- The trigger phrases of `_optimize_title` (src/main.py 1180). -/
def TRIGGER_WORDS : List String := ["طريقة عمل", "وصفة", "كيفية تحضير"]

/-- `has_trigger = any(tw in title for tw in trigger_words)` (src/main.py 1181). -/
def has_trigger_title (title : String) : Bool :=
  TRIGGER_WORDS.any (fun tw => pyIn tw title)

/-- `_optimize_title` (src/main.py 1179–1186). -/
def optimize_title (title : String) : String :=
  if !(has_trigger_title title) && !(pyStartsWith title "طريقة") then
    "طريقة عمل " ++ title
  else
    title

lemma trigger_in_optimized (t : String) :
    has_trigger_title ("طريقة عمل " ++ t) = true := by
  have hdata : ("طريقة عمل " ++ t).data =
      ("طريقة عمل" : String).data ++ (' ' :: t.data) := by
    cases t
    rfl
  have h9 : pyIn "طريقة عمل" ("طريقة عمل " ++ t) = true := by
    unfold pyIn
    rw [hdata]
    exact containsSub_of_isPrefixOf (isPrefixOf_append_self _ _)
  simp [has_trigger_title, TRIGGER_WORDS, h9]

/-- C10: `_optimize_title` is idempotent: its output either contains a
trigger phrase (the prepended `"طريقة عمل "` contains the first trigger) or
was left unchanged because it already contained one or started with
`"طريقة"`, so a second application never prepends again. -/
theorem C10_optimize_title_idempotent (t : String) :
    optimize_title (optimize_title t) = optimize_title t := by
  by_cases h : (!(has_trigger_title t) && !(pyStartsWith t "طريقة")) = true
  · have h1 : optimize_title t = "طريقة عمل " ++ t := by
      unfold optimize_title
      rw [if_pos h]
    rw [h1]
    simp [optimize_title, trigger_in_optimized t]
  · have h1 : optimize_title t = t := by
      unfold optimize_title
      rw [if_neg h]
    rw [h1, h1]

/-! ## Configuration defaults (`Config`, src/main.py 222–327)

The values below are the configuration defaults (each field is
`os.getenv(..., default)`); the claims are settled at this default
configuration. -/

def GEMINI_MAX_RETRIES : Nat := 5

def MIN_RECIPE_INGREDIENTS : Nat := 5

def MIN_RECIPE_STEPS : Nat := 6

def TARGET_WORD_COUNT : Nat := 1200

def META_DESCRIPTION_LENGTH : Nat := 160

def AGGRESSIVE_SEO_MODE : Bool := true

/-- `config.PRIMARY_KEYWORDS` default (src/main.py 264–269). -/
def PRIMARY_KEYWORDS : List String :=
  ["وصفات طبخ", "حلويات سهلة", "طريقة عمل", "وصفات منزلية",
   "حلويات لذيذة", "مطبخ عربي", "وصفات سريعة", "أطباق شهية"]

/-- `config.TARGET_WORD_COUNT * 0.8` (src/main.py 1213) at the default
configuration: the IEEE-double product `1200 * 0.8` is exactly `960.0`. -/
def TARGET_WORD_COUNT_PARTIAL : Nat := 960

/-- `int(config.TARGET_WORD_COUNT * 0.7)` (src/main.py 1282) at the default
configuration: the IEEE-double product `1200 * 0.7` is exactly `840.0`. -/
def MIN_WORDS_VALIDATE : Nat := 840

/-! ## The `Recipe` data class (src/main.py 411–430)

`prep_time`, `cook_time`, `servings` are Python `int`s; `seo_score` is a
Python float that only ever holds the non-negative integral sums produced
by `analyze_recipe`, so it is modelled as `Nat`; `published_at` (a
`datetime`) is modelled as an opaque timestamp string. -/

structure Recipe where
  title : String
  category : String
  description : String
  ingredients : List String
  steps : List String
  prep_time : Int
  cook_time : Int
  servings : Int
  difficulty : String
  meta_description : String := ""
  keywords : List String := []
  tags : List String := []
  post_id : Option String := none
  post_url : Option String := none
  published_at : Option String := none
  seo_score : Nat := 0
  word_count : Nat := 0
deriving DecidableEq

/-! ## Word counting (Python `str.split()` with no argument) -/

/-- Accumulating splitter: splits on runs of whitespace, discarding empty
fields, exactly like Python `str.split()` with no argument. -/
def wsplitAux : List Char → List Char → List (List Char)
  | [], acc => if acc.isEmpty then [] else [acc.reverse]
  | c :: cs, acc =>
    if isPySpace c then
      if acc.isEmpty then wsplitAux cs [] else acc.reverse :: wsplitAux cs []
    else wsplitAux cs (c :: acc)

/-- Python `s.split()` (no argument). -/
def pySplit (s : String) : List String := (wsplitAux s.data []).map (fun l => ⟨l⟩)

/-- `len(s.split())`, the program's word-count measure (src/main.py 1107). -/
def countWords (s : String) : Nat := (pySplit s).length

/-- Python `" ".join(xs)`. -/
def pyJoinSpace : List String → String
  | [] => ""
  | [s] => s
  | s :: rest => s ++ " " ++ pyJoinSpace rest

/-- The word count of
`f"{title} {description} " + " ".join(ingredients) + " ".join(steps)`,
the exact expression of src/main.py 1105–1107 (note: the source puts no
separator between the last ingredient and the first step). -/
def recompute_word_count (r : Recipe) : Nat :=
  countWords (r.title ++ " " ++ r.description ++ " " ++
    pyJoinSpace r.ingredients ++ pyJoinSpace r.steps)

lemma strData_append (a b : String) : (a ++ b).data = a.data ++ b.data := rfl

lemma strLen_append (a b : String) : (a ++ b).length = a.length + b.length := by
  show (a ++ b).data.length = a.data.length + b.data.length
  rw [strData_append, List.length_append]

/-! ## SEO optimizer (`SEOOptimizer`, src/main.py 1119–1186) -/

/-- The source's local `key_phrase = f" | {config.PRIMARY_KEYWORDS[0]}"`
(src/main.py 1142; the keyword list is a non-empty constant, so the
index is total). -/
def META_KEY_PHRASE : String := " | " ++ PRIMARY_KEYWORDS.headD ""

/-- The source's local
`max_len = config.META_DESCRIPTION_LENGTH - len(key_phrase) - 3`
(src/main.py 1143). -/
def META_MAX_LEN : Nat := META_DESCRIPTION_LENGTH - META_KEY_PHRASE.length - 3

/-- `_generate_optimized_meta` (src/main.py 1140–1148). -/
def generate_optimized_meta (r : Recipe) : String :=
  let base_desc := pyTake r.description (META_DESCRIPTION_LENGTH - 40)
  if META_MAX_LEN < base_desc.length then
    pyTake base_desc META_MAX_LEN ++ "..." ++ META_KEY_PHRASE
  else
    base_desc ++ META_KEY_PHRASE

/-- The fixed pool of `_extract_enhanced_keywords` (src/main.py 1161). -/
def COMMON_KEYWORDS : List String :=
  ["وصفة", "طبخ", "سهل", "لذيذ", "منزلي", "سريع", "شهي"]

/-- `_extract_enhanced_keywords` (src/main.py 1150–1164).  The source
accumulates into a Python `set` and draws `random.sample` from
`COMMON_KEYWORDS`; the unspecified set-iteration order and the random draw
are modelled by an insertion-ordered de-duplicated union and an explicit
`sample` argument.  No claim depends on this field's contents. -/
def extract_enhanced_keywords (sample : List String) (r : Recipe) : List String :=
  (List.dedup (PRIMARY_KEYWORDS ++ [r.category] ++
    ((pySplit r.title).filter (fun w => 3 < w.length)).take 3 ++ sample)).take 10

/-- `_enhance_tags` (src/main.py 1166–1177), with the same set-order
modelling. -/
def enhance_tags (r : Recipe) : List String :=
  (List.dedup (r.tags ++ [r.category, "وصفات عربية", "طبخ منزلي", r.difficulty] ++
    (if pyIn "حلو" (pyLower r.category) then ["حلويات"] else []))).take 8

/-- `optimize_for_seo` (src/main.py 1125–1138).  The keyword guard
`not recipe.keywords or len(recipe.keywords) < 3` is equivalent to
`len < 3`.  `sample` stands for the random draw inside
`_extract_enhanced_keywords`. -/
def optimize_for_seo (sample : List String) (r : Recipe) : Recipe :=
  let r1 := { r with meta_description := generate_optimized_meta r }
  let r2 := if r1.keywords.length < 3 then
      { r1 with keywords := extract_enhanced_keywords sample r1 } else r1
  let r3 := if r2.tags.length < 5 then { r2 with tags := enhance_tags r2 } else r2
  if AGGRESSIVE_SEO_MODE then { r3 with title := optimize_title r3.title } else r3

lemma pyTake_length_le (s : String) (n : Nat) : (pyTake s n).length ≤ n := by
  show (s.data.take n).length ≤ n
  rw [List.length_take]
  exact Nat.min_le_left _ _

/-- C8: the meta description produced by `_generate_optimized_meta` —
description truncated to the first 120 characters, truncated again to 145
characters with `"..."` appended if longer (which never happens at the
default configuration), then the fixed 12-character `" | وصفات طبخ"`
suffix — always has total length at most `META_DESCRIPTION_LENGTH = 160`,
the appended keyword suffix included. -/
theorem C8_meta_description_within_cap (r : Recipe) :
    (generate_optimized_meta r).length ≤ META_DESCRIPTION_LENGTH := by
  have hkey : META_KEY_PHRASE.length = 12 := rfl
  have hm : META_MAX_LEN = 145 := rfl
  have h160 : META_DESCRIPTION_LENGTH = 160 := rfl
  have hdots : ("..." : String).length = 3 := rfl
  have hb : (pyTake r.description (META_DESCRIPTION_LENGTH - 40)).length ≤ 120 :=
    pyTake_length_le _ _
  unfold generate_optimized_meta
  simp only []
  split_ifs with h
  · rw [strLen_append, strLen_append]
    have ht : (pyTake (pyTake r.description (META_DESCRIPTION_LENGTH - 40))
        META_MAX_LEN).length ≤ META_MAX_LEN := pyTake_length_le _ _
    omega
  · rw [strLen_append]
    omega

/-! ## C2: `word_count` staleness across `optimize_for_seo` -/

/-- A well-formed recipe as produced by `_parse_response`: its stored
`word_count` is the recomputed word count of its own text fields.  Its
title contains no trigger phrase, its keyword and tag lists are long
enough to skip the randomized enrichment branches. -/
def rC2base : Recipe where
  title := "كيكة الشوكولاتة بالصوص"
  category := "حلويات عربية"
  description := "وصف مفصل للكيكة مع مقادير دقيقة وخطوات واضحة لضمان نجاح التحضير من أول مرة"
  ingredients := ["كوب دقيق", "كوب سكر", "ثلاث بيضات", "نصف كوب زيت", "كوب حليب"]
  steps := ["سخني الفرن", "اخلطي المكونات الجافة", "أضيفي البيض", "اسكبي الخليط",
            "اخبزي الكيكة", "قدميها باردة"]
  prep_time := 20
  cook_time := 30
  servings := 6
  difficulty := "سهل"
  keywords := ["كيك", "شوكولاتة", "حلويات"]
  tags := ["كيك", "شوكولاتة", "حلويات", "وصفات", "طبخ"]

def rC2 : Recipe := { rC2base with word_count := recompute_word_count rC2base }

/-- C2 (code-bug evidence): `optimize_for_seo` rewrites the title (the
aggressive-SEO mode prepends `"طريقة عمل "`, two words) but never
recomputes `word_count`: on a record whose stored `word_count` was correct
on entry, the field still holds the pre-rewrite count afterwards and no
longer matches the recomputation from the current text fields. -/
theorem C2_word_count_stale_after_seo :
    (optimize_for_seo [] rC2).word_count ≠
      recompute_word_count (optimize_for_seo [] rC2) ∧
    (optimize_for_seo [] rC2).word_count = recompute_word_count rC2 := by
  constructor
  · decide
  · decide

/-! ## SEO analysis (`analyze_recipe`, src/main.py 1188–1255)

The score is a Python float accumulating the integer point values
25/15/20/12/10/15/8/5/2, hence always a non-negative integer; it is
modelled as `Nat`.  Each component below is one of the source's
sequential `score +=` blocks. -/

def title_length_score (r : Recipe) : Nat :=
  if 30 ≤ r.title.length ∧ r.title.length ≤ 70 then 25
  else if 20 ≤ r.title.length ∧ r.title.length ≤ 80 then 15
  else 0

/-- The search keywords checked inside the title (src/main.py 1203). -/
def ANALYZE_TITLE_KEYWORDS : List String := ["طريقة", "وصفة", "كيفية"]

def title_keywords_score (r : Recipe) : Nat :=
  if ANALYZE_TITLE_KEYWORDS.any (fun kw => pyIn kw (pyLower r.title)) then 15 else 0

def word_count_score (r : Recipe) : Nat :=
  if TARGET_WORD_COUNT ≤ r.word_count then 20
  else if TARGET_WORD_COUNT_PARTIAL ≤ r.word_count then 12
  else 0

def ingredients_score (r : Recipe) : Nat :=
  if MIN_RECIPE_INGREDIENTS ≤ r.ingredients.length then 10 else 0

def steps_score (r : Recipe) : Nat :=
  if MIN_RECIPE_STEPS ≤ r.steps.length then 10 else 0

def keywords_score (r : Recipe) : Nat :=
  if 6 ≤ r.keywords.length then 15
  else if 3 ≤ r.keywords.length then 8
  else 0

def meta_desc_score (r : Recipe) : Nat :=
  if r.meta_description ≠ "" ∧ 100 ≤ r.meta_description.length then 5
  else if r.meta_description ≠ "" then 2
  else 0

def analyze_score (r : Recipe) : Nat :=
  title_length_score r + title_keywords_score r + word_count_score r +
    ingredients_score r + steps_score r + keywords_score r + meta_desc_score r

/-- The grade bucket of `analyze_recipe` (src/main.py 1254). -/
def analyze_grade (score : Nat) : String :=
  if 85 ≤ score then "ممتاز"
  else if 70 ≤ score then "جيد جداً"
  else if 55 ≤ score then "جيد"
  else "مقبول"

/-- `analyze_recipe` (src/main.py 1188–1255): computes the additive score,
writes it back onto the record (`recipe.seo_score = score`, the one
sanctioned mutation) and returns the score with its grade. -/
def analyze_recipe (r : Recipe) : Recipe × Nat × String :=
  ({ r with seo_score := analyze_score r }, analyze_score r,
    analyze_grade (analyze_score r))

/-- C6: the score computed by `analyze_recipe` (also written back to
`seo_score`) lies in `[0,100]` (it is a `Nat`, so only the upper bound is
non-trivial), and a record meeting all seven thresholds — ideal title
length, a search keyword in the title, `word_count ≥ TARGET_WORD_COUNT`,
`ingredients ≥ MIN_RECIPE_INGREDIENTS`, `steps ≥ MIN_RECIPE_STEPS`,
`keywords ≥ 6`, `meta_description ≥ 100` characters — scores 100, hence at
least 85, and grades `"ممتاز"` (excellent). -/
theorem C6_analyze_score_bounds (r : Recipe) :
    (analyze_recipe r).2.1 ≤ 100 ∧
    (analyze_recipe r).1.seo_score = (analyze_recipe r).2.1 ∧
    ((30 ≤ r.title.length ∧ r.title.length ≤ 70) →
      ANALYZE_TITLE_KEYWORDS.any (fun kw => pyIn kw (pyLower r.title)) = true →
      TARGET_WORD_COUNT ≤ r.word_count →
      MIN_RECIPE_INGREDIENTS ≤ r.ingredients.length →
      MIN_RECIPE_STEPS ≤ r.steps.length →
      6 ≤ r.keywords.length →
      100 ≤ r.meta_description.length →
      85 ≤ (analyze_recipe r).2.1 ∧ (analyze_recipe r).2.2 = "ممتاز") := by
  refine ⟨?_, rfl, ?_⟩
  · have h1 : title_length_score r ≤ 25 := by
      unfold title_length_score
      split_ifs <;> omega
    have h2 : title_keywords_score r ≤ 15 := by
      unfold title_keywords_score
      split_ifs <;> omega
    have h3 : word_count_score r ≤ 20 := by
      unfold word_count_score
      split_ifs <;> omega
    have h4 : ingredients_score r ≤ 10 := by
      unfold ingredients_score
      split_ifs <;> omega
    have h5 : steps_score r ≤ 10 := by
      unfold steps_score
      split_ifs <;> omega
    have h6 : keywords_score r ≤ 15 := by
      unfold keywords_score
      split_ifs <;> omega
    have h7 : meta_desc_score r ≤ 5 := by
      unfold meta_desc_score
      split_ifs <;> omega
    show analyze_score r ≤ 100
    unfold analyze_score
    omega
  · intro ht hk hw hi hs hkw hm
    have hne : r.meta_description ≠ "" := by
      intro hh
      rw [hh] at hm
      simp [String.length] at hm
    have e1 : title_length_score r = 25 := by
      unfold title_length_score
      rw [if_pos ht]
    have e2 : title_keywords_score r = 15 := by
      unfold title_keywords_score
      rw [if_pos hk]
    have e3 : word_count_score r = 20 := by
      unfold word_count_score
      rw [if_pos hw]
    have e4 : ingredients_score r = 10 := by
      unfold ingredients_score
      rw [if_pos hi]
    have e5 : steps_score r = 10 := by
      unfold steps_score
      rw [if_pos hs]
    have e6 : keywords_score r = 15 := by
      unfold keywords_score
      rw [if_pos hkw]
    have e7 : meta_desc_score r = 5 := by
      unfold meta_desc_score
      rw [if_pos ⟨hne, hm⟩]
    have etot : analyze_score r = 100 := by
      unfold analyze_score
      omega
    constructor
    · show 85 ≤ analyze_score r
      omega
    · show analyze_grade (analyze_score r) = "ممتاز"
      rw [etot]
      rfl

/-- A record meeting every analyzer threshold, for the C6 witness. -/
def rC6 : Recipe where
  title := "طريقة عمل كيكة الشوكولاتة بالكريمة اللذيذة"
  category := "حلويات عربية"
  description := "وصف تفصيلي"
  ingredients := ["دقيق", "سكر", "بيض", "زيت", "حليب"]
  steps := ["خطوة أولى", "خطوة ثانية", "خطوة ثالثة", "خطوة رابعة", "خطوة خامسة",
            "خطوة سادسة"]
  prep_time := 20
  cook_time := 30
  servings := 6
  difficulty := "سهل"
  meta_description := "وصف تعريفي طويل ومحسن لمحركات البحث يشرح طريقة تحضير الكيكة خطوة بخطوة مع نصائح مفيدة للنجاح من أول مرة دائماً"
  keywords := ["كيك", "شوكولاتة", "حلويات", "وصفات", "طبخ", "سهل"]
  tags := ["كيك"]
  word_count := 1250

/-- C6 witness: the all-thresholds part of the theorem applied at the
concrete record `rC6`. -/
theorem C6_analyze_score_bounds_witness :
    85 ≤ (analyze_recipe rC6).2.1 ∧ (analyze_recipe rC6).2.2 = "ممتاز" :=
  (C6_analyze_score_bounds rC6).2.2 (by decide) (by decide) (by decide)
    (by decide) (by decide) (by decide) (by decide)

/-! ## Content validator (`ContentValidator.validate`, src/main.py 1267–1302) -/

/-- Error message for a short/missing title (src/main.py 1272). -/
def MSG_TITLE_SHORT : String := "❌ العنوان قصير جداً"

/-- Warning for an over-long title (src/main.py 1274). -/
def MSG_TITLE_LONG : String := "⚠️ العنوان طويل قد يؤثر على SEO"

/-- Error message for too few ingredients (src/main.py 1277); the f-string
interpolates `config.MIN_RECIPE_INGREDIENTS`. -/
def MSG_INGREDIENTS : String :=
  "❌ المقادير قليلة (مطلوب " ++ toString MIN_RECIPE_INGREDIENTS ++ "+)"

/-- Error message for too few steps (src/main.py 1280). -/
def MSG_STEPS : String :=
  "❌ الخطوات قليلة (مطلوب " ++ toString MIN_RECIPE_STEPS ++ "+)"

/-- Error message for a low word count (src/main.py 1284); the right-
associated bracketing makes the fixed 20-character head explicit. -/
def MSG_WORDS (wc : Nat) : String :=
  "❌ عدد الكلمات قليل (" ++
    (toString wc ++ ("/" ++ (toString TARGET_WORD_COUNT ++ ")")))

/-- Error message for a short/missing description (src/main.py 1287). -/
def MSG_DESC : String := "❌ الوصف قصير جداً (مطلوب 80+ حرف)"

/-- Warning for few keywords (src/main.py 1290). -/
def MSG_KEYWORDS : String := "⚠️ الكلمات المفتاحية قليلة (يُفضل 6+)"

/-- The `errors` list accumulated by `validate` (src/main.py 1268–1287),
in source order.  Python truthiness `not recipe.title` is `title = ""`. -/
def validate_errors (r : Recipe) : List String :=
  (if r.title = "" ∨ r.title.length < 10 then [MSG_TITLE_SHORT] else []) ++
  (if r.ingredients.length < MIN_RECIPE_INGREDIENTS then [MSG_INGREDIENTS] else []) ++
  (if r.steps.length < MIN_RECIPE_STEPS then [MSG_STEPS] else []) ++
  (if r.word_count < MIN_WORDS_VALIDATE then [MSG_WORDS r.word_count] else []) ++
  (if r.description = "" ∨ r.description.length < 80 then [MSG_DESC] else [])

/-- The `warnings` list accumulated by `validate` (src/main.py 1273–1290);
the title warning sits on the `elif` branch of the title error. -/
def validate_warnings (r : Recipe) : List String :=
  (if ¬(r.title = "" ∨ r.title.length < 10) ∧ 100 < r.title.length
    then [MSG_TITLE_LONG] else []) ++
  (if r.keywords.length < 3 then [MSG_KEYWORDS] else [])

/-- `validate` (src/main.py 1267–1302): every check is evaluated (no
short-circuiting), `is_valid = len(errors) == 0`, and the returned message
list is `errors + warnings`. -/
def validate (r : Recipe) : Bool × List String :=
  ((validate_errors r).isEmpty, validate_errors r ++ validate_warnings r)

lemma mem_if_singleton {x m : String} {c : Prop} [Decidable c] :
    x ∈ (if c then [m] else []) ↔ c ∧ x = m := by
  split_ifs with hc <;> simp [hc]

lemma msg_ingredients_ne_words (wc : Nat) : MSG_INGREDIENTS ≠ MSG_WORDS wc := by
  intro h
  have h3 := congrArg (fun s => s.data.take 3) h
  simp only at h3
  have hL : (MSG_INGREDIENTS.data).take 3 = ['❌', ' ', 'ا'] := rfl
  have hhead : (("❌ عدد الكلمات قليل (" : String).data).take 3 = ['❌', ' ', 'ع'] := rfl
  have hR : ((MSG_WORDS wc).data).take 3 = ['❌', ' ', 'ع'] := by
    unfold MSG_WORDS
    rw [strData_append, List.take_append_eq_append_take, hhead]
    have hlen : (("❌ عدد الكلمات قليل (" : String).data).length = 20 := rfl
    rw [hlen]
    rfl
  rw [hL, hR] at h3
  simp at h3

/-- C7: `validate` returns `ok = true` iff none of the five error checks
fails (the two warning checks — over-long title, fewer than 3 keywords —
never influence `ok`); every record with fewer than
`MIN_RECIPE_INGREDIENTS` ingredients gets `ok = false` together with the
ingredient-count message, and a record with exactly
`MIN_RECIPE_INGREDIENTS` ingredients never receives that message. -/
theorem C7_validate_ok_iff_no_errors (r : Recipe) :
    ((validate r).1 = true ↔
      (¬(r.title = "" ∨ r.title.length < 10) ∧
       MIN_RECIPE_INGREDIENTS ≤ r.ingredients.length ∧
       MIN_RECIPE_STEPS ≤ r.steps.length ∧
       MIN_WORDS_VALIDATE ≤ r.word_count ∧
       ¬(r.description = "" ∨ r.description.length < 80))) ∧
    (r.ingredients.length < MIN_RECIPE_INGREDIENTS →
      (validate r).1 = false ∧ MSG_INGREDIENTS ∈ (validate r).2) ∧
    (r.ingredients.length = MIN_RECIPE_INGREDIENTS →
      MSG_INGREDIENTS ∉ (validate r).2) := by
  refine ⟨?_, ?_, ?_⟩
  · show (validate_errors r).isEmpty = true ↔ _
    rw [List.isEmpty_iff]
    unfold validate_errors
    simp only [List.append_eq_nil]
    constructor
    · intro ⟨⟨⟨⟨h1, h2⟩, h3⟩, h4⟩, h5⟩
      have g1 : ¬(r.title = "" ∨ r.title.length < 10) := fun hc =>
        List.cons_ne_nil _ _ (by rwa [if_pos hc] at h1)
      have g2 : ¬(r.ingredients.length < MIN_RECIPE_INGREDIENTS) := fun hc =>
        List.cons_ne_nil _ _ (by rwa [if_pos hc] at h2)
      have g3 : ¬(r.steps.length < MIN_RECIPE_STEPS) := fun hc =>
        List.cons_ne_nil _ _ (by rwa [if_pos hc] at h3)
      have g4 : ¬(r.word_count < MIN_WORDS_VALIDATE) := fun hc =>
        List.cons_ne_nil _ _ (by rwa [if_pos hc] at h4)
      have g5 : ¬(r.description = "" ∨ r.description.length < 80) := fun hc =>
        List.cons_ne_nil _ _ (by rwa [if_pos hc] at h5)
      exact ⟨g1, by omega, by omega, by omega, g5⟩
    · intro ⟨h1, h2, h3, h4, h5⟩
      refine ⟨⟨⟨⟨?_, ?_⟩, ?_⟩, ?_⟩, ?_⟩
      · rw [if_neg h1]
      · rw [if_neg (by omega : ¬(r.ingredients.length < MIN_RECIPE_INGREDIENTS))]
      · rw [if_neg (by omega : ¬(r.steps.length < MIN_RECIPE_STEPS))]
      · rw [if_neg (by omega : ¬(r.word_count < MIN_WORDS_VALIDATE))]
      · rw [if_neg h5]
  · intro hlt
    have hmem : MSG_INGREDIENTS ∈ validate_errors r := by
      unfold validate_errors
      simp only [List.mem_append, mem_if_singleton]
      exact Or.inl (Or.inl (Or.inl (Or.inr ⟨hlt, trivial⟩)))
    constructor
    · show (validate_errors r).isEmpty = false
      cases herr : validate_errors r with
      | nil => rw [herr] at hmem; cases hmem
      | cons a l => rfl
    · show MSG_INGREDIENTS ∈ validate_errors r ++ validate_warnings r
      exact List.mem_append_left _ hmem
  · intro heq hmem
    have hm2 : MSG_INGREDIENTS ∈ validate_errors r ++ validate_warnings r := hmem
    unfold validate_errors validate_warnings at hm2
    simp only [List.mem_append, mem_if_singleton] at hm2
    rcases hm2 with ((((⟨_, h⟩ | ⟨hc, _⟩) | ⟨_, h⟩) | ⟨_, h⟩) | ⟨_, h⟩) |
      (⟨_, h⟩ | ⟨_, h⟩)
    · exact absurd h (by decide)
    · omega
    · exact absurd h (by decide)
    · exact absurd h (msg_ingredients_ne_words r.word_count)
    · exact absurd h (by decide)
    · exact absurd h (by decide)
    · exact absurd h (by decide)

/-- A record with too few ingredients, for the C7 witness. -/
def rC7bad : Recipe where
  title := "طريقة عمل كيكة الشوكولاتة"
  category := "حلويات عربية"
  description := "وصف تفصيلي طويل بما يكفي لتجاوز الحد الأدنى للوصف في المدقق بسهولة تامة"
  ingredients := ["دقيق", "سكر", "بيض"]
  steps := ["خطوة أولى", "خطوة ثانية", "خطوة ثالثة", "خطوة رابعة", "خطوة خامسة",
            "خطوة سادسة"]
  prep_time := 20
  cook_time := 30
  servings := 6
  difficulty := "سهل"
  word_count := 900

/-- C7 witness: the theorem applied at the concrete record `rC7bad`
(3 ingredients), discharging the below-minimum hypothesis there. -/
theorem C7_validate_ok_iff_no_errors_witness :
    (validate rC7bad).1 = false ∧ MSG_INGREDIENTS ∈ (validate rC7bad).2 :=
  (C7_validate_ok_iff_no_errors rC7bad).2.1 (by decide)

/-! ## The retry loop of `generate_recipe` (src/main.py 850–916)

One underlying API attempt (`_call_rest_api`/`_call_sdk`) either returns a
response text, returns `None` (empty/unexpected structure), or raises an
exception (rate limits, timeouts, HTTP errors including 401/403
authentication and permission failures — `_call_rest_api` raises them all
as plain `Exception`s).  The loop `for attempt in range(1, MAX_RETRIES+1)`
treats the three outcomes as: parse-and-return on text (retry when the
parse fails), retry on empty, retry on exception.  The error
classification inside the `except` block (quota/429 vs. timeout vs.
anything else, src/main.py 903–908) only selects the sleep duration and
never changes control flow, so waiting is not modelled.  The attempt
oracle `call` and the parser `parse` (`_parse_response` applied to the
response text) are parameters; the result is paired with the number of
underlying calls made, which the claims are about. -/

inductive ApiResult where
  | text (s : String)
  | empty
  | err (msg : String)

/-- The retry loop from a given attempt number with the given remaining
number of attempts (`fuel`); exhausting the budget returns `none`
(src/main.py 877, 916). -/
def genLoop (call : Nat → ApiResult) (parse : String → Option Recipe) :
    Nat → Nat → Option Recipe × Nat
  | _, 0 => (none, 0)
  | attempt, fuel + 1 =>
    match call attempt with
    | ApiResult.empty =>
      let rest := genLoop call parse (attempt + 1) fuel
      (rest.1, rest.2 + 1)
    | ApiResult.err _ =>
      let rest := genLoop call parse (attempt + 1) fuel
      (rest.1, rest.2 + 1)
    | ApiResult.text s =>
      match parse s with
      | some rec => (some rec, 1)
      | none =>
        let rest := genLoop call parse (attempt + 1) fuel
        (rest.1, rest.2 + 1)

/-- `generate_recipe` (src/main.py 850–916): the retry loop over attempts
`1..GEMINI_MAX_RETRIES`, returning the recipe (or `none`) and the number
of underlying calls made. -/
def generate_recipe (call : Nat → ApiResult) (parse : String → Option Recipe) :
    Option Recipe × Nat :=
  genLoop call parse 1 GEMINI_MAX_RETRIES

/-- An attempt that does not produce a recipe: an exception, an empty
response, or a response the parser rejects. -/
def FailsUnder (parse : String → Option Recipe) : ApiResult → Prop
  | ApiResult.text s => parse s = none
  | ApiResult.empty => True
  | ApiResult.err _ => True

lemma genLoop_skip_fails (call : Nat → ApiResult) (parse : String → Option Recipe)
    (m : Nat) :
    ∀ (a f : Nat), (∀ j, a ≤ j → j < a + m → FailsUnder parse (call j)) →
      genLoop call parse a (m + f) =
        ((genLoop call parse (a + m) f).1, (genLoop call parse (a + m) f).2 + m) := by
  induction m with
  | zero =>
    intro a f h
    simp
  | succ n ih =>
    intro a f h
    have hfail : FailsUnder parse (call a) := h a le_rfl (by omega)
    have hstep : genLoop call parse a (n + 1 + f) =
        ((genLoop call parse (a + 1) (n + f)).1,
         (genLoop call parse (a + 1) (n + f)).2 + 1) := by
      rw [show n + 1 + f = (n + f) + 1 from by omega]
      cases hc : call a with
      | text s =>
        have hp : parse s = none := by
          have := hfail
          rw [hc] at this
          exact this
        simp [genLoop, hc, hp]
      | empty => simp [genLoop, hc]
      | err m' => simp [genLoop, hc]
    rw [hstep, ih (a + 1) f (fun j hj1 hj2 => h j (by omega) (by omega))]
    rw [show a + 1 + n = a + (n + 1) from by omega]
    rfl

lemma genLoop_success (call : Nat → ApiResult) (parse : String → Option Recipe)
    (a f : Nat) (s : String) (rec : Recipe)
    (hc : call a = ApiResult.text s) (hp : parse s = some rec) :
    genLoop call parse a (f + 1) = (some rec, 1) := by
  simp [genLoop, hc, hp]

lemma generate_recipe_all_fail (call : Nat → ApiResult)
    (parse : String → Option Recipe)
    (h : ∀ j, 1 ≤ j → j ≤ GEMINI_MAX_RETRIES → FailsUnder parse (call j)) :
    generate_recipe call parse = (none, GEMINI_MAX_RETRIES) := by
  have hfail : ∀ j, 1 ≤ j → j < 1 + GEMINI_MAX_RETRIES → FailsUnder parse (call j) :=
    fun j h1 h2 => h j h1 (by omega)
  have hrw := genLoop_skip_fails call parse GEMINI_MAX_RETRIES 1 0 hfail
  unfold generate_recipe
  rw [show GEMINI_MAX_RETRIES = GEMINI_MAX_RETRIES + 0 from rfl, hrw]
  simp [genLoop]

/-- C3 (counterexample): with an authentication/permission failure on every
attempt (`_call_rest_api` raises HTTP 401/403 as a plain `Exception`,
src/main.py 988–990, and the `except` block at 893–912 retries every
exception), `generate_recipe` does not abort after the first call: it
makes all `GEMINI_MAX_RETRIES = 5` calls — not 1 — and returns `None`
with no distinct auth-error signal. -/
theorem C3_cex_auth_error_is_retried :
    (generate_recipe (fun _ => ApiResult.err "HTTP 403: permission denied")
        (fun _ => none)).2 = GEMINI_MAX_RETRIES ∧
    (generate_recipe (fun _ => ApiResult.err "HTTP 403: permission denied")
        (fun _ => none)).2 ≠ 1 ∧
    (generate_recipe (fun _ => ApiResult.err "HTTP 403: permission denied")
        (fun _ => none)).1 = none := by
  refine ⟨rfl, by decide, rfl⟩

/-- C3 (amended): `generate_recipe` does not distinguish
authentication/permission errors from network/transport errors: every
attempt that raises — whatever the message — is retried, and when all
`GEMINI_MAX_RETRIES` attempts raise, the loop burns the full budget and
returns `None` (the error class only changes the sleep duration). -/
theorem C3_every_error_class_retried (call : Nat → ApiResult)
    (parse : String → Option Recipe)
    (h : ∀ i, 1 ≤ i → i ≤ GEMINI_MAX_RETRIES → ∃ m, call i = ApiResult.err m) :
    generate_recipe call parse = (none, GEMINI_MAX_RETRIES) := by
  refine generate_recipe_all_fail call parse (fun j h1 h2 => ?_)
  obtain ⟨m, hm⟩ := h j h1 h2
  rw [hm]
  trivial

/-- C3 witness: the amended theorem applied to a call oracle raising a
permission error on every attempt. -/
theorem C3_every_error_class_retried_witness :
    generate_recipe (fun _ => ApiResult.err "403 The caller does not have permission")
        (fun _ => none) = (none, GEMINI_MAX_RETRIES) :=
  C3_every_error_class_retried _ _
    (fun _ _ _ => ⟨"403 The caller does not have permission", rfl⟩)

/-- C5: if attempts `1..k` (with `k < GEMINI_MAX_RETRIES`) fail — raise,
return empty, or yield an unparseable response — and attempt `k+1` returns
a response that parses to a recipe, `generate_recipe` returns that recipe
after exactly `k+1` underlying calls; and if all `GEMINI_MAX_RETRIES`
attempts fail, it returns `None` after exactly `GEMINI_MAX_RETRIES`
calls.  Failure is an ordinary value here: the loop body catches every
exception (src/main.py 893), so nothing escapes this boundary. -/
theorem C5_retry_budget (call : Nat → ApiResult) (parse : String → Option Recipe) :
    (∀ (k : Nat) (s : String) (rec : Recipe), k < GEMINI_MAX_RETRIES →
      (∀ j, 1 ≤ j → j ≤ k → FailsUnder parse (call j)) →
      call (k + 1) = ApiResult.text s → parse s = some rec →
      generate_recipe call parse = (some rec, k + 1)) ∧
    ((∀ j, 1 ≤ j → j ≤ GEMINI_MAX_RETRIES → FailsUnder parse (call j)) →
      generate_recipe call parse = (none, GEMINI_MAX_RETRIES)) := by
  constructor
  · intro k s rec hk hfails hcall hparse
    have h5 : GEMINI_MAX_RETRIES = 5 := rfl
    have hfail : ∀ j, 1 ≤ j → j < 1 + k → FailsUnder parse (call j) :=
      fun j h1 h2 => hfails j h1 (by omega)
    have hsplit : GEMINI_MAX_RETRIES = k + (GEMINI_MAX_RETRIES - k) := by omega
    have hfuel : GEMINI_MAX_RETRIES - k = (GEMINI_MAX_RETRIES - k - 1) + 1 := by
      omega
    unfold generate_recipe
    rw [hsplit, genLoop_skip_fails call parse k 1 (GEMINI_MAX_RETRIES - k) hfail,
      hfuel, genLoop_success call parse (1 + k) _ s rec
        (by rw [show 1 + k = k + 1 from by omega]; exact hcall) hparse]
    simp [Nat.add_comm]
  · exact generate_recipe_all_fail call parse

/-- A recipe value for the C5 witness's parser oracle. -/
def rGen : Recipe where
  title := "طريقة عمل كيكة سريعة"
  category := "حلويات عربية"
  description := "وصف"
  ingredients := ["دقيق"]
  steps := ["اخبزي"]
  prep_time := 10
  cook_time := 20
  servings := 4
  difficulty := "سهل"

/-- C5 witness: the theorem's first part applied with `k = 1`: one failing
attempt (a timeout) followed by a parseable response yields the recipe
after exactly 2 calls. -/
theorem C5_retry_budget_witness :
    generate_recipe (fun i => if i = 1 then ApiResult.err "timeout"
        else ApiResult.text "resp") (fun _ => some rGen) = (some rGen, 2) :=
  (C5_retry_budget _ _).1 1 "resp" rGen (by decide)
    (fun j h1 h2 => by
      have hj : j = 1 := by omega
      subst hj
      trivial)
    rfl rfl

/-! ## Response parsing (`_parse_response`, src/main.py 1073–1113)

The free-text step (`re.search` over the response, `json.loads`) is not
modelled; `parse_response_obj` starts from the decoded JSON object, which
is what claim C4 quantifies over.  A JSON value is one of the standard six
shapes; numbers carry an exact rational (floats only ever hold the small
integers relevant here). -/

inductive Json where
  | null
  | bool (b : Bool)
  | num (q : ℚ)
  | str (s : String)
  | arr (xs : List Json)
  | obj (fields : List (String × Json))

/-- Python dict access `data.get(k)`/`k in data` on a decoded JSON object
(keys are unique in a decoded object; first match). -/
def jGet (fields : List (String × Json)) (k : String) : Option Json :=
  fields.lookup k

/-- Python truthiness of a JSON value (`not data[f]`). -/
def pyTruthy : Json → Bool
  | Json.null => false
  | Json.bool b => b
  | Json.num q => decide (q ≠ 0)
  | Json.str s => decide (s ≠ "")
  | Json.arr xs => !xs.isEmpty
  | Json.obj fs => !fs.isEmpty

def digitsToNatAux : List Char → Nat → Option Nat
  | [], acc => some acc
  | c :: cs, acc =>
    if c.isDigit then digitsToNatAux cs (acc * 10 + (c.toNat - 48)) else none

/-- Decimal digits to a number; empty input is a parse error. -/
def digitsToNat : List Char → Option Nat
  | [] => none
  | c :: cs => digitsToNatAux (c :: cs) 0

/-- Python `int(s)` on a string: optional surrounding whitespace, optional
sign, at least one digit (digit-group underscores are not modelled; no
claim exercises them). -/
def strToInt (s : String) : Option Int :=
  match (pyStrip s).data with
  | '-' :: rest => (digitsToNat rest).map (fun n => -(n : Int))
  | '+' :: rest => (digitsToNat rest).map (fun n => (n : Int))
  | l => (digitsToNat l).map (fun n => (n : Int))

/-- Python `int(v)` on a JSON value: numbers truncate toward zero, bools
map to 1/0, numeric strings parse, everything else raises (`none`). -/
def pyInt : Json → Option Int
  | Json.num q =>
    some (if q.num < 0 then -(Int.ofNat (q.num.natAbs / q.den))
          else Int.ofNat (q.num.natAbs / q.den))
  | Json.bool b => some (if b then 1 else 0)
  | Json.str s => strToInt s
  | _ => none

/-- `int(data.get(k, dflt))` (src/main.py 1097–1099): an absent key takes
the integer default directly; a present value goes through `int(...)`,
whose failure aborts the whole parse. -/
def intFieldD (fields : List (String × Json)) (k : String) (dflt : Int) :
    Option Int :=
  match jGet fields k with
  | none => some dflt
  | some v => pyInt v

/-- `data.get(k, dflt)` for a string-valued field.  A present non-string
value is rejected; in the source a non-string only raises where a string
method is applied (`.strip()` on title/description), so for `difficulty`
this is slightly stricter than Python — the claims only exercise
absent-or-string values. -/
def strFieldD (fields : List (String × Json)) (k : String) (dflt : String) :
    Option String :=
  match jGet fields k with
  | none => some dflt
  | some (Json.str s) => some s
  | some _ => none

def asStrList : List Json → Option (List String)
  | [] => some []
  | Json.str s :: rest => (asStrList rest).map (fun l => s :: l)
  | _ :: _ => none

/-- `data.get(k, dflt)` for a list-of-strings field.  Non-string elements
make the source raise when the list is joined into `full_text`
(src/main.py 1105–1106); a non-list value is rejected likewise (for a
string value Python would iterate its characters — not exercised by any
claim). -/
def strListField (fields : List (String × Json)) (k : String)
    (dflt : List String) : Option (List String) :=
  match jGet fields k with
  | none => some dflt
  | some (Json.arr xs) => asStrList xs
  | some _ => none

/-- The required-fields check of `_parse_response` (src/main.py 1084–1089):
`title`, `description`, `ingredients`, `steps` must be present and truthy. -/
def missingRequired (fields : List (String × Json)) : List String :=
  ["title", "description", "ingredients", "steps"].filter (fun f =>
    match jGet fields f with
    | none => true
    | some v => !pyTruthy v)

/-- `_parse_response` (src/main.py 1073–1113) from the decoded JSON object
on: required-fields check, field coercions with defaults
(`prep_time`/`cook_time`/`servings` 30/30/4, `difficulty` `"متوسط"`,
`keywords` `[]`, `tags` `[category]`), `word_count` computed from the
constructed record.  Any raising coercion lands in the function's
`except` and yields `None`. -/
def parse_response_obj (fields : List (String × Json)) (category : String) :
    Option Recipe :=
  if !(missingRequired fields).isEmpty then none
  else do
    let title ← strFieldD fields "title" ""
    let description ← strFieldD fields "description" ""
    let ingredients ← strListField fields "ingredients" []
    let steps ← strListField fields "steps" []
    let prep_time ← intFieldD fields "prep_time" 30
    let cook_time ← intFieldD fields "cook_time" 30
    let servings ← intFieldD fields "servings" 4
    let difficulty ← strFieldD fields "difficulty" "متوسط"
    let keywords ← strListField fields "keywords" []
    let tags ← strListField fields "tags" [category]
    let r : Recipe := {
      title := pyStrip title
      category := category
      description := pyStrip description
      ingredients := ingredients
      steps := steps
      prep_time := prep_time
      cook_time := cook_time
      servings := servings
      difficulty := difficulty
      keywords := keywords
      tags := tags }
    some { r with word_count := recompute_word_count r }

lemma asStrList_map (l : List String) : asStrList (l.map Json.str) = some l := by
  induction l with
  | nil => rfl
  | cons s rest ih => simp [asStrList, ih]

/-- The record built by `_parse_response` before `word_count` is filled in
(src/main.py 1091–1103). -/
def parsedRecordBase (category t d : String) (ings stps : List String)
    (p c v : Int) (diff : String) (kws tgs : List String) : Recipe where
  title := pyStrip t
  category := category
  description := pyStrip d
  ingredients := ings
  steps := stps
  prep_time := p
  cook_time := c
  servings := v
  difficulty := diff
  keywords := kws
  tags := tgs

/-- The record returned by `_parse_response` (src/main.py 1105–1109). -/
def parsedRecord (category t d : String) (ings stps : List String)
    (p c v : Int) (diff : String) (kws tgs : List String) : Recipe :=
  { parsedRecordBase category t d ings stps p c v diff kws tgs with
    word_count := recompute_word_count
      (parsedRecordBase category t d ings stps p c v diff kws tgs) }

/-- C4 (amended): when the decoded object carries non-empty string `title`
and `description` and non-empty string-array `ingredients` and `steps`,
and the remaining fields are absent or coercible (`prep_time`, `cook_time`,
`servings` absent or `int(...)`-coercible; `difficulty` absent or a
string; `keywords`/`tags` absent or string arrays), `_parse_response`
succeeds, and the defaults are as claimed: `prep_time`/`cook_time`/
`servings` default to 30/30/4 when ABSENT, `difficulty` to `"متوسط"`,
`keywords` to `[]` and `tags` to `[category]` when absent.  (A present but
non-numeric value does not take the default — see the counterexample.) -/
theorem C4_parse_defaults (fields : List (String × Json)) (category : String)
    (t d : String) (ings stps : List String) (p c v : Int)
    (diff : String) (kws tgs : List String)
    (ht : jGet fields "title" = some (Json.str t)) (ht2 : t ≠ "")
    (hd : jGet fields "description" = some (Json.str d)) (hd2 : d ≠ "")
    (hi : jGet fields "ingredients" = some (Json.arr (ings.map Json.str)))
    (hi2 : ings ≠ [])
    (hs : jGet fields "steps" = some (Json.arr (stps.map Json.str)))
    (hs2 : stps ≠ [])
    (hp : intFieldD fields "prep_time" 30 = some p)
    (hc : intFieldD fields "cook_time" 30 = some c)
    (hv : intFieldD fields "servings" 4 = some v)
    (hdiff : strFieldD fields "difficulty" "متوسط" = some diff)
    (hk : strListField fields "keywords" [] = some kws)
    (htg : strListField fields "tags" [category] = some tgs) :
    ∃ r, parse_response_obj fields category = some r ∧
      r.title = pyStrip t ∧ r.description = pyStrip d ∧
      r.ingredients = ings ∧ r.steps = stps ∧
      r.prep_time = p ∧ r.cook_time = c ∧ r.servings = v ∧
      r.difficulty = diff ∧ r.keywords = kws ∧ r.tags = tgs ∧
      r.word_count = recompute_word_count r ∧
      (jGet fields "prep_time" = none → r.prep_time = 30) ∧
      (jGet fields "cook_time" = none → r.cook_time = 30) ∧
      (jGet fields "servings" = none → r.servings = 4) ∧
      (jGet fields "difficulty" = none → r.difficulty = "متوسط") ∧
      (jGet fields "keywords" = none → r.keywords = []) ∧
      (jGet fields "tags" = none → r.tags = [category]) := by
  have hie : (ings.map Json.str).isEmpty = false := by
    cases ings with
    | nil => exact absurd rfl hi2
    | cons a l => rfl
  have hse : (stps.map Json.str).isEmpty = false := by
    cases stps with
    | nil => exact absurd rfl hs2
    | cons a l => rfl
  have hmiss : missingRequired fields = [] := by
    unfold missingRequired
    simp [List.filter, ht, hd, hi, hs, pyTruthy, ht2, hd2, hie, hse]
  have hT : strFieldD fields "title" "" = some t := by
    simp [strFieldD, ht]
  have hD : strFieldD fields "description" "" = some d := by
    simp [strFieldD, hd]
  have hI : strListField fields "ingredients" [] = some ings := by
    simp [strListField, hi, asStrList_map]
  have hS : strListField fields "steps" [] = some stps := by
    simp [strListField, hs, asStrList_map]
  refine ⟨parsedRecord category t d ings stps p c v diff kws tgs,
    ?_, rfl, rfl, rfl, rfl, rfl, rfl, rfl, rfl, rfl, rfl, rfl,
    ?_, ?_, ?_, ?_, ?_, ?_⟩
  · unfold parse_response_obj
    rw [hmiss, hT, hD, hI, hS, hp, hc, hv, hdiff, hk, htg]
    rfl
  · intro h0
    unfold intFieldD at hp
    rw [h0] at hp
    exact (Option.some.inj hp).symm
  · intro h0
    unfold intFieldD at hc
    rw [h0] at hc
    exact (Option.some.inj hc).symm
  · intro h0
    unfold intFieldD at hv
    rw [h0] at hv
    exact (Option.some.inj hv).symm
  · intro h0
    unfold strFieldD at hdiff
    rw [h0] at hdiff
    exact (Option.some.inj hdiff).symm
  · intro h0
    unfold strListField at hk
    rw [h0] at hk
    exact (Option.some.inj hk).symm
  · intro h0
    unfold strListField at htg
    rw [h0] at htg
    exact (Option.some.inj htg).symm

/-- A decoded object with all required fields well-formed but a
non-numeric `prep_time`. -/
def dC4bad : List (String × Json) :=
  [("title", Json.str "كيكة سهلة ولذيذة"),
   ("description", Json.str "وصف مناسب"),
   ("ingredients", Json.arr [Json.str "دقيق", Json.str "سكر", Json.str "بيض",
      Json.str "زيت", Json.str "حليب"]),
   ("steps", Json.arr [Json.str "اخلطي", Json.str "اخبزي", Json.str "قدمي",
      Json.str "زيني", Json.str "بردي", Json.str "قطعي"]),
   ("prep_time", Json.str "abc")]

/-- C4 (counterexample): the claim says a non-numeric `prep_time` takes the
default 30; in the code `int('abc')` raises, the exception lands in the
function's `except`, and `_parse_response` returns `None` — the parse does
not succeed at all. -/
theorem C4_cex_nonnumeric_field_fails_parse :
    parse_response_obj dC4bad "حلويات عربية" = none := by
  rfl

/-- A decoded object with only the four required fields present. -/
def dC4ok : List (String × Json) :=
  [("title", Json.str "كيكة سهلة"),
   ("description", Json.str "وصف جيد"),
   ("ingredients", Json.arr [Json.str "دقيق"]),
   ("steps", Json.arr [Json.str "اخبزي"])]

/-- C4 witness: the amended theorem applied at a concrete object with all
optional fields absent, showing every default take effect. -/
theorem C4_parse_defaults_witness :
    ∃ r, parse_response_obj dC4ok "حلويات عربية" = some r ∧
      r.prep_time = 30 ∧ r.cook_time = 30 ∧ r.servings = 4 ∧
      r.difficulty = "متوسط" ∧ r.keywords = [] ∧ r.tags = ["حلويات عربية"] := by
  obtain ⟨r, hpr, e1, e2, e3, e4, e5, e6, e7, e8, e9, e10, e11,
      i1, i2, i3, i4, i5, i6⟩ :=
    C4_parse_defaults dC4ok "حلويات عربية" "كيكة سهلة" "وصف جيد" ["دقيق"]
      ["اخبزي"] 30 30 4 "متوسط" [] ["حلويات عربية"] rfl (by decide) rfl
      (by decide) rfl (by decide) rfl (by decide) rfl rfl rfl rfl rfl rfl
  exact ⟨r, hpr, i1 rfl, i2 rfl, i3 rfl, i4 rfl, i5 rfl, i6 rfl⟩

/-! ## Analytics tracker (`AnalyticsTracker`, src/main.py 1391–1466)

A tracking entry carries the fields written by `track_recipe`;
`published_at` (an ISO timestamp string or `null`) and the ids are opaque
strings.  `seo_score` in an entry is the integral analyzer score (see the
`Recipe` model); `avg_seo_score` is an exact rational — the stored value
and the re-derived value are produced by the identical expression on the
identical data, so exact arithmetic preserves their equality/inequality. -/

structure TrackEntry where
  post_id : Option String
  title : String
  category : String
  seo_score : Nat
  word_count : Nat
  published_at : Option String
  is_published : Bool
  url : Option String
deriving DecidableEq

structure TrackStats where
  total_published : Nat
  total_drafts : Nat
  avg_seo_score : ℚ
  categories_count : List (String × Nat)
  last_publish : Option String
deriving DecidableEq

structure TrackerData where
  recipes : List TrackEntry
  statistics : TrackStats
deriving DecidableEq

/-- The fresh store `_load` returns when no saved file exists
(src/main.py 1407–1416). -/
def initialTracker : TrackerData where
  recipes := []
  statistics :=
    { total_published := 0
      total_drafts := 0
      avg_seo_score := 0
      categories_count := []
      last_publish := none }

/-- The entry appended by `track_recipe` (src/main.py 1426–1435). -/
def entryOf (r : Recipe) (published : Bool) : TrackEntry where
  post_id := r.post_id
  title := r.title
  category := r.category
  seo_score := r.seo_score
  word_count := r.word_count
  published_at := r.published_at
  is_published := published
  url := r.post_url

/-- Python `d[k] = d.get(k, 0) + 1` on a dict rendered as an
insertion-ordered association list (src/main.py 1446). -/
def bumpCount : List (String × Nat) → String → List (String × Nat)
  | [], c => [(c, 1)]
  | (k, v) :: rest, c =>
    if k = c then (k, v + 1) :: rest else (k, v) :: bumpCount rest c

def lookupCount : List (String × Nat) → String → Nat
  | [], _ => 0
  | (k, v) :: rest, c => if k = c then v else lookupCount rest c

/-- `[r['seo_score'] for r in recipes if r.get('seo_score', 0) > 0]`
(src/main.py 1448). -/
def positiveScores (recs : List TrackEntry) : List Nat :=
  (recs.filter (fun e => 0 < e.seo_score)).map TrackEntry.seo_score

/-- The statistics update performed by `track_recipe`
(src/main.py 1437–1450): bump the published/draft counter, set
`last_publish` to the current timestamp, bump the category counter, and
recompute the average over the positive scores of the full entry list
`recs` (skipped when there are none). -/
def track_stats (s0 : TrackStats) (cat : String) (published : Bool)
    (now : String) (recs : List TrackEntry) : TrackStats :=
  let s1 :=
    if published then { s0 with total_published := s0.total_published + 1 }
    else { s0 with total_drafts := s0.total_drafts + 1 }
  let s2 := { s1 with last_publish := some now,
                      categories_count := bumpCount s1.categories_count cat }
  if (positiveScores recs).isEmpty then s2
  else { s2 with avg_seo_score :=
          ((positiveScores recs).sum : ℚ) / ((positiveScores recs).length : ℚ) }

/-- `track_recipe` (src/main.py 1425–1452): append the entry, then apply
the statistics update. -/
def track_recipe (dta : TrackerData) (r : Recipe) (published : Bool)
    (now : String) : TrackerData :=
  { recipes := dta.recipes ++ [entryOf r published],
    statistics := track_stats dta.statistics r.category published now
      (dta.recipes ++ [entryOf r published]) }

/-- A sequence of `track_recipe` calls starting from the fresh store; each
input is the recipe, the `published` flag, and the call's timestamp. -/
def foldTrack (inputs : List (Recipe × Bool × String)) : TrackerData :=
  inputs.foldl (fun d i => track_recipe d i.1 i.2.1 i.2.2) initialTracker

/-- Number of entries with `is_published` true. -/
def countPublished (recs : List TrackEntry) : Nat :=
  (recs.filter (fun e => e.is_published)).length

/-- Number of entries with `is_published` false. -/
def countDrafts (recs : List TrackEntry) : Nat :=
  (recs.filter (fun e => !e.is_published)).length

/-- Number of entries in a given category. -/
def countCategory (recs : List TrackEntry) (c : String) : Nat :=
  (recs.filter (fun e => e.category = c)).length

/-- The average the store actually maintains: mean of the positive
`seo_score` values, 0 while none exist. -/
def avgPositive (recs : List TrackEntry) : ℚ :=
  if (positiveScores recs).isEmpty then 0
  else ((positiveScores recs).sum : ℚ) / ((positiveScores recs).length : ℚ)

/-- Modelled from the spec's words for the C9 counterexample: the claimed
re-derived aggregate takes "the running average of the entries'
`seo_score` values" — all of them, zeros included. -/
def avgAllScores_spec (recs : List TrackEntry) : ℚ :=
  if recs.isEmpty then 0
  else ((recs.map TrackEntry.seo_score).sum : ℚ) / (recs.length : ℚ)

/-! ### Serialization round-trip (`_save`/`_load`, src/main.py 1399–1423)

`_save` dumps the store as one JSON document and `_load` reads it back;
the encoders below produce that document shape and the decoders read it.
Numbers are exact rationals (all values written here are integers or the
stored average). -/

def encOptStr : Option String → Json
  | none => Json.null
  | some s => Json.str s

def decOptStr : Json → Option (Option String)
  | Json.null => some none
  | Json.str s => some (some s)
  | _ => none

def decStr : Json → Option String
  | Json.str s => some s
  | _ => none

def decBool : Json → Option Bool
  | Json.bool b => some b
  | _ => none

def decNat : Json → Option Nat
  | Json.num q => if q.den = 1 ∧ 0 ≤ q.num then some q.num.toNat else none
  | _ => none

def decQ : Json → Option ℚ
  | Json.num q => some q
  | _ => none

def encodeEntry (e : TrackEntry) : Json :=
  Json.obj [("post_id", encOptStr e.post_id), ("title", Json.str e.title),
    ("category", Json.str e.category), ("seo_score", Json.num e.seo_score),
    ("word_count", Json.num e.word_count),
    ("published_at", encOptStr e.published_at),
    ("is_published", Json.bool e.is_published), ("url", encOptStr e.url)]

def decodeEntry : Json → Option TrackEntry
  | Json.obj fs => do
    let pidj ← jGet fs "post_id"
    let pid ← decOptStr pidj
    let tj ← jGet fs "title"
    let t ← decStr tj
    let cj ← jGet fs "category"
    let c ← decStr cj
    let sj ← jGet fs "seo_score"
    let s ← decNat sj
    let wj ← jGet fs "word_count"
    let w ← decNat wj
    let pj ← jGet fs "published_at"
    let pa ← decOptStr pj
    let ipj ← jGet fs "is_published"
    let ip ← decBool ipj
    let uj ← jGet fs "url"
    let u ← decOptStr uj
    some { post_id := pid, title := t, category := c, seo_score := s,
           word_count := w, published_at := pa, is_published := ip, url := u }
  | _ => none

def decodeEntries : List Json → Option (List TrackEntry)
  | [] => some []
  | j :: rest => do
    let e ← decodeEntry j
    let es ← decodeEntries rest
    some (e :: es)

def encodeCounts (l : List (String × Nat)) : List (String × Json) :=
  l.map (fun kv => (kv.1, Json.num kv.2))

def decodeCounts : List (String × Json) → Option (List (String × Nat))
  | [] => some []
  | (k, j) :: rest => do
    let n ← decNat j
    let ns ← decodeCounts rest
    some ((k, n) :: ns)

def encodeStats (s : TrackStats) : Json :=
  Json.obj [("total_published", Json.num s.total_published),
    ("total_drafts", Json.num s.total_drafts),
    ("avg_seo_score", Json.num s.avg_seo_score),
    ("categories_count", Json.obj (encodeCounts s.categories_count)),
    ("last_publish", encOptStr s.last_publish)]

def decodeStats : Json → Option TrackStats
  | Json.obj fs => do
    let tpj ← jGet fs "total_published"
    let tp ← decNat tpj
    let tdj ← jGet fs "total_drafts"
    let td ← decNat tdj
    let avj ← jGet fs "avg_seo_score"
    let av ← decQ avj
    let ccj ← jGet fs "categories_count"
    let cc ← match ccj with
      | Json.obj cfs => decodeCounts cfs
      | _ => none
    let lpj ← jGet fs "last_publish"
    let lp ← decOptStr lpj
    some { total_published := tp, total_drafts := td, avg_seo_score := av,
           categories_count := cc, last_publish := lp }
  | _ => none

def encodeTracker (d : TrackerData) : Json :=
  Json.obj [("recipes", Json.arr (d.recipes.map encodeEntry)),
            ("statistics", encodeStats d.statistics)]

def decodeTracker : Json → Option TrackerData
  | Json.obj fs => do
    let rj ← jGet fs "recipes"
    let recs ← match rj with
      | Json.arr xs => decodeEntries xs
      | _ => none
    let sj ← jGet fs "statistics"
    let stats ← decodeStats sj
    some { recipes := recs, statistics := stats }
  | _ => none

lemma decOptStr_roundtrip (o : Option String) : decOptStr (encOptStr o) = some o := by
  cases o <;> rfl

lemma decNat_roundtrip (n : Nat) : decNat (Json.num (n : ℚ)) = some n := by
  simp [decNat]

lemma decodeEntry_roundtrip (e : TrackEntry) :
    decodeEntry (encodeEntry e) = some e := by
  cases e
  simp [decodeEntry, encodeEntry, jGet, List.lookup, decOptStr_roundtrip,
    decStr, decBool, decNat_roundtrip]

lemma decodeEntries_roundtrip (l : List TrackEntry) :
    decodeEntries (l.map encodeEntry) = some l := by
  induction l with
  | nil => rfl
  | cons e rest ih => simp [decodeEntries, decodeEntry_roundtrip e, ih]

lemma decodeCounts_roundtrip (l : List (String × Nat)) :
    decodeCounts (encodeCounts l) = some l := by
  induction l with
  | nil => rfl
  | cons kv rest ih =>
    simp only [encodeCounts] at ih ⊢
    simp [decodeCounts, decNat_roundtrip, ih]

lemma decodeStats_roundtrip (s : TrackStats) :
    decodeStats (encodeStats s) = some s := by
  cases s
  simp [decodeStats, encodeStats, jGet, List.lookup, decNat_roundtrip, decQ,
    decodeCounts_roundtrip, decOptStr_roundtrip]

lemma decodeTracker_roundtrip (d : TrackerData) :
    decodeTracker (encodeTracker d) = some d := by
  cases d
  simp [decodeTracker, encodeTracker, jGet, List.lookup,
    decodeEntries_roundtrip, decodeStats_roundtrip]

lemma lookupCount_bumpCount (l : List (String × Nat)) (c0 ct : String) :
    lookupCount (bumpCount l c0) ct =
      lookupCount l ct + (if c0 = ct then 1 else 0) := by
  induction l with
  | nil => simp [bumpCount, lookupCount]
  | cons kv rest ih =>
    obtain ⟨k, v⟩ := kv
    by_cases hk : k = c0
    · by_cases hct : k = ct
      · have h1 : c0 = ct := by rw [← hk, hct]
        simp [bumpCount, lookupCount, hk, hct, h1]
      · have h1 : ¬(c0 = ct) := by rw [← hk]; exact hct
        simp [bumpCount, lookupCount, hk, hct, h1]
    · by_cases hct : k = ct
      · have h1 : ¬(c0 = ct) := fun hc => hk (by rw [hct, hc])
        have hk2 : ¬(ct = c0) := fun hc => hk (by rw [hct, hc])
        simp [bumpCount, lookupCount, hk, hct, h1, hk2]
      · simp [bumpCount, lookupCount, hk, hct, ih]

lemma countPublished_append (recs : List TrackEntry) (e : TrackEntry) :
    countPublished (recs ++ [e]) =
      countPublished recs + (if e.is_published then 1 else 0) := by
  unfold countPublished
  rw [List.filter_append, List.length_append]
  cases hpub : e.is_published <;> simp [List.filter, hpub]

lemma countDrafts_append (recs : List TrackEntry) (e : TrackEntry) :
    countDrafts (recs ++ [e]) =
      countDrafts recs + (if e.is_published then 0 else 1) := by
  unfold countDrafts
  rw [List.filter_append, List.length_append]
  cases hpub : e.is_published <;> simp [List.filter, hpub]

lemma countCategory_append (recs : List TrackEntry) (e : TrackEntry) (ct : String) :
    countCategory (recs ++ [e]) ct =
      countCategory recs ct + (if e.category = ct then 1 else 0) := by
  unfold countCategory
  rw [List.filter_append, List.length_append]
  by_cases hc : e.category = ct <;> simp [List.filter, hc]

lemma positiveScores_append (recs : List TrackEntry) (e : TrackEntry) :
    positiveScores (recs ++ [e]) =
      positiveScores recs ++ (if 0 < e.seo_score then [e.seo_score] else []) := by
  unfold positiveScores
  rw [List.filter_append, List.map_append]
  congr 1
  by_cases h : 0 < e.seo_score <;> simp [List.filter, h]

/-- The aggregate consistency the store maintains: every statistics field
equals its re-derivation from the `recipes` list. -/
def TrackInv (d : TrackerData) : Prop :=
  d.statistics.total_published = countPublished d.recipes ∧
  d.statistics.total_drafts = countDrafts d.recipes ∧
  (∀ ct, lookupCount d.statistics.categories_count ct =
    countCategory d.recipes ct) ∧
  d.statistics.avg_seo_score = avgPositive d.recipes

lemma track_stats_total_published (s0 : TrackStats) (cat : String) (pb : Bool)
    (now : String) (recs : List TrackEntry) :
    (track_stats s0 cat pb now recs).total_published =
      s0.total_published + (if pb then 1 else 0) := by
  unfold track_stats
  cases pb <;> by_cases hsc : (positiveScores recs).isEmpty = true <;> simp [hsc]

lemma track_stats_total_drafts (s0 : TrackStats) (cat : String) (pb : Bool)
    (now : String) (recs : List TrackEntry) :
    (track_stats s0 cat pb now recs).total_drafts =
      s0.total_drafts + (if pb then 0 else 1) := by
  unfold track_stats
  cases pb <;> by_cases hsc : (positiveScores recs).isEmpty = true <;> simp [hsc]

lemma track_stats_categories (s0 : TrackStats) (cat : String) (pb : Bool)
    (now : String) (recs : List TrackEntry) :
    (track_stats s0 cat pb now recs).categories_count =
      bumpCount s0.categories_count cat := by
  unfold track_stats
  cases pb <;> by_cases hsc : (positiveScores recs).isEmpty = true <;> simp [hsc]

lemma track_stats_avg (s0 : TrackStats) (cat : String) (pb : Bool)
    (now : String) (recs : List TrackEntry) :
    (track_stats s0 cat pb now recs).avg_seo_score =
      if (positiveScores recs).isEmpty then s0.avg_seo_score
      else ((positiveScores recs).sum : ℚ) / ((positiveScores recs).length : ℚ) := by
  unfold track_stats
  cases pb <;> by_cases hsc : (positiveScores recs).isEmpty = true <;> simp [hsc]

lemma track_recipe_preserves (d : TrackerData) (r : Recipe) (pb : Bool)
    (now : String) (h : TrackInv d) : TrackInv (track_recipe d r pb now) := by
  obtain ⟨h1, h2, h3, h4⟩ := h
  have hrec : (track_recipe d r pb now).recipes = d.recipes ++ [entryOf r pb] := rfl
  have hst : (track_recipe d r pb now).statistics =
      track_stats d.statistics r.category pb now (d.recipes ++ [entryOf r pb]) := rfl
  refine ⟨?_, ?_, ?_, ?_⟩
  · rw [hrec, hst, track_stats_total_published, countPublished_append, h1]
    simp [entryOf]
  · rw [hrec, hst, track_stats_total_drafts, countDrafts_append, h2]
    simp [entryOf]
  · intro ct
    rw [hrec, hst, track_stats_categories, lookupCount_bumpCount,
      countCategory_append, h3 ct]
    simp [entryOf]
  · rw [hrec, hst, track_stats_avg]
    by_cases hsc : (positiveScores (d.recipes ++ [entryOf r pb])).isEmpty = true
    · have hnil : positiveScores (d.recipes ++ [entryOf r pb]) = [] :=
        List.isEmpty_iff.mp hsc
      have hpre : positiveScores d.recipes = [] := by
        rw [positiveScores_append] at hnil
        exact (List.append_eq_nil.mp hnil).1
      rw [if_pos hsc, h4]
      unfold avgPositive
      rw [hpre, hnil]
    · rw [if_neg hsc]
      unfold avgPositive
      rw [if_neg hsc]

lemma foldTrack_aux_inv (inputs : List (Recipe × Bool × String)) :
    ∀ d, TrackInv d →
      TrackInv (inputs.foldl (fun d i => track_recipe d i.1 i.2.1 i.2.2) d) := by
  induction inputs with
  | nil => exact fun d hd => hd
  | cons i rest ih =>
    exact fun d hd => ih _ (track_recipe_preserves d i.1 i.2.1 i.2.2 hd)

lemma initialTracker_inv : TrackInv initialTracker :=
  ⟨rfl, rfl, fun _ => rfl, rfl⟩

/-- C9 (amended): for every sequence of `track_recipe` calls (duplicate
categories included) starting from the fresh store, the store serializes
and deserializes back to itself, and every stored statistic equals its
re-derivation from the `recipes` list: `total_published` is the number of
entries with `is_published` true, `total_drafts` the number with it false,
`categories_count[c]` the number of entries in category `c`, and
`avg_seo_score` is the mean of the entries' POSITIVE `seo_score` values
(zero-score entries are excluded by the source's comprehension; the value
stays 0 while no positive score exists). -/
theorem C9_tracker_aggregate_roundtrip (inputs : List (Recipe × Bool × String)) :
    decodeTracker (encodeTracker (foldTrack inputs)) = some (foldTrack inputs) ∧
    (foldTrack inputs).statistics.total_published =
      countPublished (foldTrack inputs).recipes ∧
    (foldTrack inputs).statistics.total_drafts =
      countDrafts (foldTrack inputs).recipes ∧
    (∀ ct, lookupCount (foldTrack inputs).statistics.categories_count ct =
      countCategory (foldTrack inputs).recipes ct) ∧
    (foldTrack inputs).statistics.avg_seo_score =
      avgPositive (foldTrack inputs).recipes := by
  have hinv : TrackInv (foldTrack inputs) :=
    foldTrack_aux_inv inputs initialTracker initialTracker_inv
  exact ⟨decodeTracker_roundtrip _, hinv.1, hinv.2.1, hinv.2.2.1, hinv.2.2.2⟩

/-- A tracked recipe whose analyzer score is 0 (every check failed). -/
def trackIn1 : Recipe where
  title := "وصفة أولى"
  category := "حلويات عربية"
  description := "وصف"
  ingredients := ["دقيق"]
  steps := ["اخبزي"]
  prep_time := 10
  cook_time := 10
  servings := 2
  difficulty := "سهل"

/-- A tracked recipe with score 50. -/
def trackIn2 : Recipe :=
  { trackIn1 with title := "وصفة ثانية", seo_score := 50 }

/-- C9 (counterexample): after tracking an entry with `seo_score = 0` and
one with `seo_score = 50`, the stored `avg_seo_score` is 50 — the source's
comprehension `if r.get('seo_score', 0) > 0` drops the zero entry — while
the running average of the entries' `seo_score` values, as the claim reads,
is 25. -/
theorem C9_cex_avg_skips_zero_scores :
    (foldTrack [(trackIn1, true, "t1"), (trackIn2, true, "t2")]).statistics.avg_seo_score ≠
      avgAllScores_spec
        (foldTrack [(trackIn1, true, "t1"), (trackIn2, true, "t2")]).recipes := by
  have h1 : (foldTrack [(trackIn1, true, "t1"),
      (trackIn2, true, "t2")]).statistics.avg_seo_score = 50 := by
    simp [foldTrack, List.foldl, track_recipe, track_stats, initialTracker,
      entryOf, positiveScores, trackIn1, trackIn2, List.filter, bumpCount]
  have h2 : avgAllScores_spec (foldTrack [(trackIn1, true, "t1"),
      (trackIn2, true, "t2")]).recipes = 25 := by
    simp [avgAllScores_spec, foldTrack, List.foldl, track_recipe, initialTracker,
      entryOf, trackIn1, trackIn2]
    norm_num
  rw [h1, h2]
  norm_num

end Zajmil
